import Mathlib

/-!
# Verification of the photosynthesis simulation engine

Shallow embedding of `src/Photosynthesis/script.js`: the simulation state,
the environment derivation (`calculateEnvironment`), the rate computation
(`calculateRate`), the biomass integration step of `updateSimulation`, and
the manual-input handlers.  Machine floats are modelled as real numbers;
JavaScript `Math.sin`, `Math.cos`, `Math.exp` become `Real.sin` / `Real.exp`.
-/

namespace Photosynthesis

noncomputable section

/-- The mutable simulation state object (`const state = {...}`, script.js
lines 2-17).  Field names follow the source. -/
structure SimState where
  time : ℝ
  day : ℤ
  autoPlay : Bool
  light : ℝ
  co2 : ℝ
  temp : ℝ
  growthRate : ℝ
  biomass : ℝ
  limitingFactor : String

/-- `const OPTIMAL_TEMP = 25` (script.js line 20). -/
def OPTIMAL_TEMP : ℝ := 25

/-- `const MAX_BIOMASS = 200` (script.js line 21). -/
def MAX_BIOMASS : ℝ := 200

/-- The initial state literal (script.js lines 2-17). -/
def initState : SimState :=
  { time := 12.0
    day := 1
    autoPlay := true
    light := 100
    co2 := 40
    temp := 25
    growthRate := 0
    biomass := 15
    limitingFactor := "None" }

/-- p5.js `map(v, a, b, c, d)`: linear re-mapping of `v` from `[a,b]` to
`[c,d]`, unclamped. -/
def pmap (v a b c d : ℝ) : ℝ := c + (d - c) * ((v - a) / (b - a))

/-- The light-derivation block of `calculateEnvironment` (script.js lines
71-77 together with the final clamp on line 92): inside the daylight window
`[6,18]` the time is mapped onto `[0, π]` and fed to `sin`, scaled by 100;
outside the window light is 0; a final `if (light < 0) light = 0` clamp. -/
def deriveLight (tod : ℝ) : ℝ :=
  let l := if 6 ≤ tod ∧ tod ≤ 18 then Real.sin (pmap tod 6 18 0 Real.pi) * 100 else 0
  if l < 0 then 0 else l

/-- The temperature-derivation block of `calculateEnvironment` (script.js
lines 88-89): `dailyVar = sin(map(time - 8, 0, 24, 0, TWO_PI)) * 10;
temp = 20 + dailyVar`.  (The unused locals `tempOffset` and `tempT` of the
source have no observable effect and are omitted.) -/
def deriveTemperature (tod : ℝ) : ℝ :=
  20 + Real.sin (pmap (tod - 8) 0 24 0 (2 * Real.pi)) * 10

/-- `calculateEnvironment()` (script.js lines 62-95): when `autoPlay`,
advance time by 0.02, reset to 0 and bump the day counter when the new time
reaches 24, then derive light and temperature from the new time; when not
`autoPlay`, the whole body is skipped. -/
def calculateEnvironment (s : SimState) : SimState :=
  if s.autoPlay then
    let t1 := s.time + 0.02
    let t2 := if 24 ≤ t1 then (0 : ℝ) else t1
    let d2 := if 24 ≤ t1 then s.day + 1 else s.day
    { s with time := t2, day := d2, light := deriveLight t2, temp := deriveTemperature t2 }
  else s

/-- The local `lightEffect` of `calculateRate` (script.js line 100):
`100 * (light / (light + 20))`. -/
def lightEffect (l : ℝ) : ℝ := 100 * (l / (l + 20))

/-- The local `co2Effect` of `calculateRate` (script.js line 101):
`100 * (co2 / (co2 + 20))`. -/
def co2Effect (c : ℝ) : ℝ := 100 * (c / (c + 20))

/-- The local `tempEffect` of `calculateRate` (script.js lines 102-104):
`100 * exp(-(|temp - OPTIMAL_TEMP|^2 / 200))`, snapped to 0 when below 1. -/
def tempEffect (t : ℝ) : ℝ :=
  let e := 100 * Real.exp (-(|t - OPTIMAL_TEMP| ^ 2 / 200))
  if e < 1 then 0 else e

/-- `calculateRate()` (script.js lines 97-119): the rate is the minimum of
the three effect scores, overridden to 0 when `light < 1`; the limiting
factor is determined by comparing the (post-override) rate against the
light, CO₂ and temperature scores in that order. -/
def calculateRate (s : SimState) : SimState :=
  let lE := lightEffect s.light
  let cE := co2Effect s.co2
  let tE := tempEffect s.temp
  let rate0 := min lE (min cE tE)
  let rate := if s.light < 1 then 0 else rate0
  { s with growthRate := rate
           limitingFactor :=
             if rate = lE then "light" else if rate = cE then "co2" else "temp" }

/-- The biomass-integration step of `updateSimulation` (script.js lines
124-126): `if (rate > 0 && biomass < MAX_BIOMASS) biomass += rate * 0.0005`.
There is no clamp after the addition. -/
def integrateBiomass (b rate : ℝ) : ℝ :=
  if 0 < rate ∧ b < MAX_BIOMASS then b + rate * 0.0005 else b

/-- `updateSimulation()` (script.js lines 121-133): one tick -- environment,
then rate, then biomass integration.  (The chart sampling on lines 128-132
touches only the chart, not the simulation state.) -/
def updateSimulation (s : SimState) : SimState :=
  let s2 := calculateRate (calculateEnvironment s)
  { s2 with biomass := integrateBiomass s2.biomass s2.growthRate }

/-- `handleManualInput` (script.js lines 164-171): touching the light or
temperature slider pauses auto-play and writes all three slider values into
the state. -/
def handleManualInput (s : SimState) (l c t : ℝ) : SimState :=
  { s with autoPlay := false, light := l, co2 := c, temp := t }

/-- The CO₂ slider listener (script.js lines 177-179): writes `co2` without
touching `autoPlay`. -/
def setCo2 (s : SimState) (c : ℝ) : SimState := { s with co2 := c }

/-- The pause button listener (script.js lines 182-185): flips `autoPlay`. -/
def togglePause (s : SimState) : SimState := { s with autoPlay := !s.autoPlay }

/-- External events that mutate the simulation state between frames: a tick
of the draw loop, a light/temperature slider input, a CO₂ slider input, or
the pause button. -/
inductive Action where
  | tick
  | manualInput (l c t : ℝ)
  | setCo2 (c : ℝ)
  | togglePause

/-- Apply one external event to the state. -/
def applyAction (s : SimState) : Action → SimState
  | .tick => updateSimulation s
  | .manualInput l c t => handleManualInput s l c t
  | .setCo2 c => setCo2 s c
  | .togglePause => togglePause s

/-- Run a sequence of external events from a state. -/
def runActions (acts : List Action) (s : SimState) : SimState :=
  acts.foldl applyAction s

/-- An event carries valid inputs: slider values within their documented
ranges (light, CO₂ in [0,100], temperature in [0,50]). -/
def ValidAction : Action → Prop
  | .tick => True
  | .manualInput l c t => 0 ≤ l ∧ l ≤ 100 ∧ 0 ≤ c ∧ c ≤ 100 ∧ 0 ≤ t ∧ t ≤ 50
  | .setCo2 c => 0 ≤ c ∧ c ≤ 100
  | .togglePause => True

end

/-! ## Helper lemmas: field preservation and elementary bounds -/

@[simp] lemma calculateRate_time (s : SimState) : (calculateRate s).time = s.time := by
  simp [calculateRate]

@[simp] lemma calculateRate_day (s : SimState) : (calculateRate s).day = s.day := by
  simp [calculateRate]

@[simp] lemma calculateRate_autoPlay (s : SimState) :
    (calculateRate s).autoPlay = s.autoPlay := by
  simp [calculateRate]

@[simp] lemma calculateRate_light (s : SimState) : (calculateRate s).light = s.light := by
  simp [calculateRate]

@[simp] lemma calculateRate_co2 (s : SimState) : (calculateRate s).co2 = s.co2 := by
  simp [calculateRate]

@[simp] lemma calculateRate_temp (s : SimState) : (calculateRate s).temp = s.temp := by
  simp [calculateRate]

@[simp] lemma calculateRate_biomass (s : SimState) :
    (calculateRate s).biomass = s.biomass := by
  simp [calculateRate]

lemma calculateRate_growthRate (s : SimState) :
    (calculateRate s).growthRate =
      if s.light < 1 then 0
      else min (lightEffect s.light) (min (co2Effect s.co2) (tempEffect s.temp)) := by
  simp [calculateRate]

lemma calculateRate_limitingFactor (s : SimState) :
    (calculateRate s).limitingFactor =
      (if (calculateRate s).growthRate = lightEffect s.light then "light"
       else if (calculateRate s).growthRate = co2Effect s.co2 then "co2" else "temp") := by
  simp [calculateRate]

lemma calculateEnvironment_frozen (s : SimState) (h : s.autoPlay = false) :
    calculateEnvironment s = s := by
  simp [calculateEnvironment, h]

@[simp] lemma calculateEnvironment_co2 (s : SimState) :
    (calculateEnvironment s).co2 = s.co2 := by
  unfold calculateEnvironment; split <;> simp

@[simp] lemma calculateEnvironment_biomass (s : SimState) :
    (calculateEnvironment s).biomass = s.biomass := by
  unfold calculateEnvironment; split <;> simp

@[simp] lemma calculateEnvironment_autoPlay (s : SimState) :
    (calculateEnvironment s).autoPlay = s.autoPlay := by
  unfold calculateEnvironment; split <;> simp

lemma updateSimulation_biomass (s : SimState) :
    (updateSimulation s).biomass =
      integrateBiomass s.biomass ((calculateRate (calculateEnvironment s)).growthRate) := by
  simp [updateSimulation]

@[simp] lemma updateSimulation_time (s : SimState) :
    (updateSimulation s).time = (calculateEnvironment s).time := by
  simp [updateSimulation]

@[simp] lemma updateSimulation_day (s : SimState) :
    (updateSimulation s).day = (calculateEnvironment s).day := by
  simp [updateSimulation]

@[simp] lemma updateSimulation_light (s : SimState) :
    (updateSimulation s).light = (calculateEnvironment s).light := by
  simp [updateSimulation]

@[simp] lemma updateSimulation_temp (s : SimState) :
    (updateSimulation s).temp = (calculateEnvironment s).temp := by
  simp [updateSimulation]

@[simp] lemma updateSimulation_co2 (s : SimState) :
    (updateSimulation s).co2 = s.co2 := by
  simp [updateSimulation]

@[simp] lemma updateSimulation_autoPlay (s : SimState) :
    (updateSimulation s).autoPlay = s.autoPlay := by
  simp [updateSimulation]

@[simp] lemma updateSimulation_limitingFactor (s : SimState) :
    (updateSimulation s).limitingFactor =
      (calculateRate (calculateEnvironment s)).limitingFactor := by
  simp [updateSimulation]

lemma tempEffect_le_100 (t : ℝ) : tempEffect t ≤ 100 := by
  unfold tempEffect
  dsimp only
  split
  · norm_num
  · have h1 : Real.exp (-(|t - OPTIMAL_TEMP| ^ 2 / 200)) ≤ Real.exp 0 := by
      apply Real.exp_le_exp.mpr
      have : (0 : ℝ) ≤ |t - OPTIMAL_TEMP| ^ 2 / 200 := by positivity
      linarith
    rw [Real.exp_zero] at h1
    linarith

lemma tempEffect_at_optimal : tempEffect 25 = 100 := by
  unfold tempEffect OPTIMAL_TEMP
  norm_num [Real.exp_zero]

lemma growthRate_le_100 (s : SimState) : (calculateRate s).growthRate ≤ 100 := by
  rw [calculateRate_growthRate]
  split
  · norm_num
  · calc min (lightEffect s.light) (min (co2Effect s.co2) (tempEffect s.temp))
        ≤ min (co2Effect s.co2) (tempEffect s.temp) := min_le_right _ _
      _ ≤ tempEffect s.temp := min_le_right _ _
      _ ≤ 100 := tempEffect_le_100 _

lemma integrateBiomass_mono (b r : ℝ) : b ≤ integrateBiomass b r := by
  unfold integrateBiomass
  split
  · next h => nlinarith [h.1]
  · exact le_rfl

lemma integrateBiomass_lt_cap (b r : ℝ) (hr : r ≤ 100) (hb : b < 200.05) :
    integrateBiomass b r < 200.05 := by
  unfold integrateBiomass MAX_BIOMASS
  split
  · next h => nlinarith [h.1, h.2]
  · exact hb

lemma integrateBiomass_le_add (b r : ℝ) (hr : r ≤ 100) :
    integrateBiomass b r ≤ b + 0.05 := by
  unfold integrateBiomass
  split
  · next h => nlinarith [h.1]
  · linarith

lemma integrateBiomass_at_cap (b r : ℝ) (hb : 200 ≤ b) : integrateBiomass b r = b := by
  unfold integrateBiomass MAX_BIOMASS
  rw [if_neg]
  rintro ⟨-, h⟩
  exact absurd hb (not_le.mpr h)

lemma updateSimulation_biomass_mono (s : SimState) :
    s.biomass ≤ (updateSimulation s).biomass := by
  rw [updateSimulation_biomass]; exact integrateBiomass_mono _ _

lemma updateSimulation_biomass_lt (s : SimState) (h : s.biomass < 200.05) :
    (updateSimulation s).biomass < 200.05 := by
  rw [updateSimulation_biomass]
  exact integrateBiomass_lt_cap _ _ (growthRate_le_100 _) h

lemma applyAction_biomass_mono (s : SimState) (a : Action) :
    s.biomass ≤ (applyAction s a).biomass := by
  cases a with
  | tick => exact updateSimulation_biomass_mono s
  | manualInput l c t => simp [applyAction, handleManualInput]
  | setCo2 c => simp [applyAction, setCo2]
  | togglePause => simp [applyAction, togglePause]

lemma applyAction_biomass_lt (s : SimState) (a : Action) (h : s.biomass < 200.05) :
    (applyAction s a).biomass < 200.05 := by
  cases a with
  | tick => exact updateSimulation_biomass_lt s h
  | manualInput l c t => simpa [applyAction, handleManualInput] using h
  | setCo2 c => simpa [applyAction, setCo2] using h
  | togglePause => simpa [applyAction, togglePause] using h

lemma runActions_append (l1 l2 : List Action) (s : SimState) :
    runActions (l1 ++ l2) s = runActions l2 (runActions l1 s) := by
  simp [runActions, List.foldl_append]

lemma runActions_biomass_mono (acts : List Action) (s : SimState) :
    s.biomass ≤ (runActions acts s).biomass := by
  induction acts generalizing s with
  | nil => exact le_rfl
  | cons a rest ih =>
    calc s.biomass ≤ (applyAction s a).biomass := applyAction_biomass_mono s a
      _ ≤ (runActions rest (applyAction s a)).biomass := ih _
      _ = (runActions (a :: rest) s).biomass := rfl

lemma runActions_biomass_lt (acts : List Action) (s : SimState) (h : s.biomass < 200.05) :
    (runActions acts s).biomass < 200.05 := by
  induction acts generalizing s with
  | nil => exact h
  | cons a rest ih => exact ih (applyAction s a) (applyAction_biomass_lt s a h)

/-! ## Claim theorems -/

/-- Claim C2: for all light, CO₂ and temperature inputs, the rate computed by
`calculateRate` equals the minimum of the three effect scores -- where the
light score is `100 * light / (light + 20)`, the CO₂ score is
`100 * co2 / (co2 + 20)` and the temperature score is the temperature effect
(the Gaussian value snapped to 0 below 1) -- except when `light < 1`, in
which case the rate is 0. -/
theorem c2_rate_is_min_of_effects (s : SimState) :
    (calculateRate s).growthRate =
      if s.light < 1 then 0
      else
        min (100 * s.light / (s.light + 20))
          (min (100 * s.co2 / (s.co2 + 20))
            (if 100 * Real.exp (-((s.temp - 25) ^ 2 / 200)) < 1 then 0
             else 100 * Real.exp (-((s.temp - 25) ^ 2 / 200)))) := by
  rw [calculateRate_growthRate]
  unfold lightEffect co2Effect tempEffect OPTIMAL_TEMP
  simp only [sq_abs, mul_div_assoc]

/-- Claim C7: `tempEffect temp` equals `100 * exp(-((temp-25)^2)/200)`
snapped to exactly 0 when that value is below 1; consequently it is at most
100, with equality exactly when `temp = 25`. -/
theorem c7_temp_effect (t : ℝ) :
    tempEffect t =
      (if 100 * Real.exp (-((t - 25) ^ 2 / 200)) < 1 then 0
       else 100 * Real.exp (-((t - 25) ^ 2 / 200))) ∧
    tempEffect t ≤ 100 ∧ (tempEffect t = 100 ↔ t = 25) := by
  refine ⟨?_, tempEffect_le_100 t, ?_, ?_⟩
  · unfold tempEffect OPTIMAL_TEMP
    simp only [sq_abs]
  · intro h
    unfold tempEffect OPTIMAL_TEMP at h
    dsimp only at h
    by_cases hc : 100 * Real.exp (-(|t - 25| ^ 2 / 200)) < 1
    · rw [if_pos hc] at h
      norm_num at h
    · rw [if_neg hc] at h
      have hexp : Real.exp (-(|t - 25| ^ 2 / 200)) = 1 := by linarith
      have harg : -(|t - 25| ^ 2 / 200) = 0 :=
        Real.exp_injective (hexp.trans Real.exp_zero.symm)
      have habs : |t - 25| ^ 2 = 0 := by linarith
      have : t - 25 = 0 := by
        have := pow_eq_zero_iff (n := 2) (by norm_num) |>.mp habs
        exact abs_eq_zero.mp this
      linarith
  · rintro rfl
    exact tempEffect_at_optimal

/-- Claim C5 counterexample: `integrateBiomass` does not clamp at the cap.
At biomass 199.99 and rate 50 it returns 200.015, which exceeds
`MAX_BIOMASS = 200`, refuting the claim that the result never exceeds 200. -/
theorem c5_overshoots_cap :
    integrateBiomass 199.99 50 = 200.015 ∧ MAX_BIOMASS < 200.015 := by
  constructor
  · unfold integrateBiomass MAX_BIOMASS
    rw [if_pos (by norm_num)]
    norm_num
  · unfold MAX_BIOMASS; norm_num

/-- Claim C5 (amended): the biomass-integration step returns
`currentBiomass + rate * 0.0005` when `rate > 0` and the biomass is below
`MAX_BIOMASS = 200` -- with no clamp, so the result may exceed 200 -- and
returns the biomass unchanged when `rate ≤ 0` or the biomass is at or above
the cap. -/
theorem c5_integrate_biomass (b r : ℝ) :
    (0 < r → b < MAX_BIOMASS → integrateBiomass b r = b + r * 0.0005) ∧
    (r ≤ 0 ∨ MAX_BIOMASS ≤ b → integrateBiomass b r = b) := by
  constructor
  · intro h1 h2
    unfold integrateBiomass
    rw [if_pos ⟨h1, h2⟩]
  · intro h
    unfold integrateBiomass
    rw [if_neg]
    rintro ⟨h1, h2⟩
    rcases h with h | h
    · exact absurd h1 (not_lt.mpr h)
    · exact absurd h2 (not_lt.mpr h)

/-- Claim C5 witness: concrete instantiations of the amended theorem -- a
growing step from biomass 15 at rate 50, and an unchanged step at rate 0. -/
theorem c5_integrate_biomass_witness :
    integrateBiomass 15 50 = 15 + 50 * 0.0005 ∧ integrateBiomass 15 0 = 15 :=
  ⟨(c5_integrate_biomass 15 50).1 (by norm_num) (by unfold MAX_BIOMASS; norm_num),
   (c5_integrate_biomass 15 0).2 (Or.inl le_rfl)⟩

/-- Claim C9: after every call to `calculateRate` the `limitingFactor` field
is one of `"light"`, `"co2"` or `"temp"` and never `"None"`; the same holds
after every full tick (`updateSimulation`); `"None"` is only the initial
value before the first tick. -/
theorem c9_limiting_factor_total (s : SimState) :
    ((calculateRate s).limitingFactor = "light" ∨
      (calculateRate s).limitingFactor = "co2" ∨
      (calculateRate s).limitingFactor = "temp") ∧
    (calculateRate s).limitingFactor ≠ "None" ∧
    ((updateSimulation s).limitingFactor = "light" ∨
      (updateSimulation s).limitingFactor = "co2" ∨
      (updateSimulation s).limitingFactor = "temp") ∧
    (updateSimulation s).limitingFactor ≠ "None" ∧
    initState.limitingFactor = "None" := by
  have key : ∀ u : SimState, (calculateRate u).limitingFactor = "light" ∨
      (calculateRate u).limitingFactor = "co2" ∨
      (calculateRate u).limitingFactor = "temp" := by
    intro u
    rw [calculateRate_limitingFactor]
    split
    · exact Or.inl rfl
    · split
      · exact Or.inr (Or.inl rfl)
      · exact Or.inr (Or.inr rfl)
  have ne_none : ∀ u : SimState, (calculateRate u).limitingFactor ≠ "None" := by
    intro u
    rcases key u with h | h | h <;> rw [h] <;> decide
  refine ⟨key s, ne_none s, ?_, ?_, rfl⟩
  · rw [updateSimulation_limitingFactor]; exact key _
  · rw [updateSimulation_limitingFactor]; exact ne_none _

lemma calculateEnvironment_wrap (s : SimState) (ha : s.autoPlay = true)
    (hw : 24 ≤ s.time + 0.02) :
    (calculateEnvironment s).time = 0 ∧ (calculateEnvironment s).day = s.day + 1 := by
  simp only [calculateEnvironment, ha, if_true]
  rw [if_pos hw, if_pos hw]
  exact ⟨rfl, rfl⟩

lemma calculateEnvironment_no_wrap (s : SimState) (ha : s.autoPlay = true)
    (hw : s.time + 0.02 < 24) :
    (calculateEnvironment s).time = s.time + 0.02 ∧
    (calculateEnvironment s).day = s.day := by
  simp only [calculateEnvironment, ha, if_true]
  rw [if_neg (not_le.mpr hw), if_neg (not_le.mpr hw)]
  exact ⟨rfl, rfl⟩

/-- Claim C4 counterexample: at `timeOfDay = 23.99` with auto-play on, the
incremented time 24.01 reaches 24, and the code resets the time to exactly
0 -- not to `timeOfDay + 0.02 - 24 = 0.01` as the claim states. -/
theorem c4_wrap_resets_to_zero :
    (calculateEnvironment { initState with time := 23.99 }).time = 0 ∧
    (23.99 : ℝ) + 0.02 - 24 = 0.01 ∧
    (calculateEnvironment { initState with time := 23.99 }).time ≠
      (23.99 : ℝ) + 0.02 - 24 := by
  have h := (calculateEnvironment_wrap { initState with time := 23.99 } rfl
    (by norm_num)).1
  refine ⟨h, by norm_num, ?_⟩
  rw [h]
  norm_num

/-- Claim C4 (amended): with auto-play on, a call to `calculateEnvironment`
increments `timeOfDay` by the speed constant 0.02; whenever the incremented
time reaches 24 it is reset to exactly 0 (not to `timeOfDay - 24`) and the
day counter is incremented by exactly 1; with auto-play off the call is a
no-op. -/
theorem c4_clock_advance (s : SimState) :
    (s.autoPlay = true →
      (24 ≤ s.time + 0.02 →
        (calculateEnvironment s).time = 0 ∧ (calculateEnvironment s).day = s.day + 1) ∧
      (s.time + 0.02 < 24 →
        (calculateEnvironment s).time = s.time + 0.02 ∧
        (calculateEnvironment s).day = s.day)) ∧
    (s.autoPlay = false → calculateEnvironment s = s) :=
  ⟨fun ha => ⟨calculateEnvironment_wrap s ha, calculateEnvironment_no_wrap s ha⟩,
   calculateEnvironment_frozen s⟩

/-- Claim C4 witness: the amended theorem instantiated at the initial state
(time 12, auto-play on): one tick advances the clock to 12.02 within day 1. -/
theorem c4_clock_advance_witness :
    (calculateEnvironment initState).time = initState.time + 0.02 ∧
    (calculateEnvironment initState).day = initState.day :=
  ((c4_clock_advance initState).1 rfl).2 (by norm_num [initState])

/-- Claim C6: `deriveLight` returns 0 for every time outside the daylight
window `[6,18]`; inside the window it returns `100 * sin` of the time mapped
linearly from `[6,18]` onto `[0,π]`; `deriveLight 12 = 100`,
`deriveLight 6 = 0`, `deriveLight 18 = 0`; and the result is always ≥ 0. -/
theorem c6_derive_light :
    (∀ t : ℝ,
      ((t < 6 ∨ 18 < t) → deriveLight t = 0) ∧
      (6 ≤ t → t ≤ 18 → deriveLight t = 100 * Real.sin (Real.pi * ((t - 6) / 12))) ∧
      0 ≤ deriveLight t) ∧
    deriveLight 12 = 100 ∧ deriveLight 6 = 0 ∧ deriveLight 18 = 0 := by
  have hclamp : ∀ x : ℝ, 0 ≤ (if x < 0 then (0 : ℝ) else x) := by
    intro x
    split
    · exact le_rfl
    · next h => exact not_lt.mp h
  have hmap : ∀ t : ℝ, pmap t 6 18 0 Real.pi = Real.pi * ((t - 6) / 12) := by
    intro t; unfold pmap; ring
  have hwin : ∀ t : ℝ, 6 ≤ t → t ≤ 18 →
      deriveLight t = 100 * Real.sin (Real.pi * ((t - 6) / 12)) := by
    intro t h1 h2
    have hsin : 0 ≤ Real.sin (Real.pi * ((t - 6) / 12)) := by
      apply Real.sin_nonneg_of_nonneg_of_le_pi
      · have : (0 : ℝ) ≤ (t - 6) / 12 := by linarith
        positivity
      · have h12 : (t - 6) / 12 ≤ 1 := by linarith
        calc Real.pi * ((t - 6) / 12) ≤ Real.pi * 1 :=
              mul_le_mul_of_nonneg_left h12 Real.pi_pos.le
          _ = Real.pi := mul_one _
    unfold deriveLight
    dsimp only
    rw [if_pos (show 6 ≤ t ∧ t ≤ 18 from ⟨h1, h2⟩), hmap]
    rw [if_neg (not_lt.mpr (by nlinarith))]
    ring
  have hout : ∀ t : ℝ, (t < 6 ∨ 18 < t) → deriveLight t = 0 := by
    intro t ht
    have hno : ¬(6 ≤ t ∧ t ≤ 18) := by
      rintro ⟨h1, h2⟩
      rcases ht with h | h
      · exact absurd h1 (not_le.mpr h)
      · exact absurd h2 (not_le.mpr h)
    unfold deriveLight
    dsimp only
    rw [if_neg hno]
    norm_num
  have hnn : ∀ t : ℝ, 0 ≤ deriveLight t := by
    intro t
    unfold deriveLight
    dsimp only
    exact hclamp _
  refine ⟨fun t => ⟨hout t, hwin t, hnn t⟩, ?_, ?_, ?_⟩
  · rw [hwin 12 (by norm_num) (by norm_num)]
    have : Real.pi * ((12 - 6 : ℝ) / 12) = Real.pi / 2 := by ring
    rw [this, Real.sin_pi_div_two]
    norm_num
  · rw [hwin 6 le_rfl (by norm_num)]
    norm_num
  · rw [hwin 18 (by norm_num) le_rfl]
    have : Real.pi * ((18 - 6 : ℝ) / 12) = Real.pi := by ring
    rw [this, Real.sin_pi]
    norm_num

/-- Claim C6 witness: at time 3 (night) the light is 0, and at noon it is
exactly 100. -/
theorem c6_derive_light_witness : deriveLight 3 = 0 ∧ deriveLight 12 = 100 :=
  ⟨(c6_derive_light.1 3).1 (Or.inl (by norm_num)), c6_derive_light.2.1⟩

/-- Claim C8: with auto-play off, a tick leaves `timeOfDay`, `dayCount`,
`light`, `temperature` and `co2` unchanged; the CO₂ slider handler writes
`co2` regardless of the auto-play flag; a manual override sets auto-play to
false, and after a manual light override a subsequent tick leaves the light
value untouched. -/
theorem c8_paused_tick_frame (s : SimState) (v l c t : ℝ) :
    (s.autoPlay = false →
      (updateSimulation s).time = s.time ∧ (updateSimulation s).day = s.day ∧
      (updateSimulation s).light = s.light ∧ (updateSimulation s).temp = s.temp ∧
      (updateSimulation s).co2 = s.co2) ∧
    (setCo2 s v).co2 = v ∧
    (handleManualInput s l c t).autoPlay = false ∧
    (updateSimulation (handleManualInput s l c t)).light = l := by
  refine ⟨?_, rfl, rfl, ?_⟩
  · intro h
    have he := calculateEnvironment_frozen s h
    simp [he]
  · rw [updateSimulation_light, calculateEnvironment_frozen _ rfl]
    rfl

/-- Claim C8 witness: starting from the initial state, a manual light
override to 10 (with CO₂ 40 and temperature 25 on the sliders) pauses
auto-play; the next tick keeps light at 10, and the paused tick also keeps
the frozen clock of a paused state; the CO₂ slider still writes through. -/
theorem c8_paused_tick_frame_witness :
    (updateSimulation { initState with autoPlay := false }).time =
      ({ initState with autoPlay := false } : SimState).time ∧
    (setCo2 { initState with autoPlay := false } 55).co2 = 55 ∧
    (updateSimulation (handleManualInput initState 10 40 25)).light = 10 := by
  have h := c8_paused_tick_frame { initState with autoPlay := false } 55 10 40 25
  have h2 := c8_paused_tick_frame initState 55 10 40 25
  exact ⟨(h.1 rfl).1, h.2.1, h2.2.2.2⟩

/-- Claim C3 counterexample: at light 0.5 (night override active), CO₂ 40,
temperature 25, the light score is the strict minimum of the three scores,
so the claim says the limiting factor is `"light"`; but the code compares
the overridden rate 0 against the scores and reports `"temp"`. -/
theorem c3_night_limiting_mismatch :
    (calculateRate { initState with light := 0.5 }).limitingFactor = "temp" ∧
    lightEffect (0.5 : ℝ) < co2Effect 40 ∧
    lightEffect (0.5 : ℝ) < tempEffect 25 ∧
    ("temp" : String) ≠ "light" := by
  have hl : ({ initState with light := 0.5 } : SimState).light = (0.5 : ℝ) := rfl
  have hc : ({ initState with light := 0.5 } : SimState).co2 = (40 : ℝ) := rfl
  have ht : ({ initState with light := 0.5 } : SimState).temp = (25 : ℝ) := rfl
  have hrate : (calculateRate { initState with light := 0.5 }).growthRate = 0 := by
    rw [calculateRate_growthRate, hl, if_pos (by norm_num)]
  refine ⟨?_, ?_, ?_, by decide⟩
  · rw [calculateRate_limitingFactor, hrate, hl, hc]
    rw [if_neg (by norm_num [lightEffect]), if_neg (by norm_num [co2Effect])]
  · norm_num [lightEffect, co2Effect]
  · rw [tempEffect_at_optimal]
    norm_num [lightEffect]

/-- Claim C3 (amended): whenever `light ≥ 1` (so the night override does not
fire), the limiting factor reported by `calculateRate` is whichever of the
three effect scores equals their minimum, with tie-break priority light >
CO₂ > temperature (first match wins).  When `light < 1` the rate is forced
to 0 and the reported factor compares 0 against the scores instead, so the
reported factor need not be the minimal score (see the counterexample). -/
theorem c3_limiting_factor_first_min (s : SimState) (h : 1 ≤ s.light) :
    ((calculateRate s).limitingFactor = "light" ↔
      lightEffect s.light ≤ co2Effect s.co2 ∧ lightEffect s.light ≤ tempEffect s.temp) ∧
    ((calculateRate s).limitingFactor = "co2" ↔
      ¬(lightEffect s.light ≤ co2Effect s.co2 ∧
          lightEffect s.light ≤ tempEffect s.temp) ∧
      co2Effect s.co2 ≤ tempEffect s.temp) ∧
    ((calculateRate s).limitingFactor = "temp" ↔
      ¬(lightEffect s.light ≤ co2Effect s.co2 ∧
          lightEffect s.light ≤ tempEffect s.temp) ∧
      ¬co2Effect s.co2 ≤ tempEffect s.temp) := by
  have hnl : ¬s.light < 1 := not_lt.mpr h
  have hrate : (calculateRate s).growthRate =
      min (lightEffect s.light) (min (co2Effect s.co2) (tempEffect s.temp)) := by
    rw [calculateRate_growthRate, if_neg hnl]
  rw [calculateRate_limitingFactor, hrate]
  set lE := lightEffect s.light
  set cE := co2Effect s.co2
  set tE := tempEffect s.temp
  by_cases h1 : lE ≤ cE ∧ lE ≤ tE
  · have hmin : min lE (min cE tE) = lE := min_eq_left (le_min h1.1 h1.2)
    rw [hmin, if_pos rfl]
    exact ⟨⟨fun _ => h1, fun _ => rfl⟩,
      ⟨fun hx => absurd hx (by decide), fun hx => absurd h1 hx.1⟩,
      ⟨fun hx => absurd hx (by decide), fun hx => absurd h1 hx.1⟩⟩
  · have hlt : min cE tE < lE := by
      rcases not_and_or.mp h1 with hx | hx
      · exact lt_of_le_of_lt (min_le_left _ _) (not_le.mp hx)
      · exact lt_of_le_of_lt (min_le_right _ _) (not_le.mp hx)
    have hmin : min lE (min cE tE) = min cE tE := min_eq_right hlt.le
    rw [hmin, if_neg (ne_of_lt hlt)]
    by_cases h2 : cE ≤ tE
    · rw [min_eq_left h2, if_pos rfl]
      exact ⟨⟨fun hx => absurd hx (by decide), fun hx => absurd hx h1⟩,
        ⟨fun _ => ⟨h1, h2⟩, fun _ => rfl⟩,
        ⟨fun hx => absurd hx (by decide), fun hx => absurd h2 hx.2⟩⟩
    · have hne : ¬min cE tE = cE := by
        rw [min_eq_right (not_le.mp h2).le]
        exact ne_of_lt (not_le.mp h2)
      rw [if_neg hne]
      exact ⟨⟨fun hx => absurd hx (by decide), fun hx => absurd hx h1⟩,
        ⟨fun hx => absurd hx (by decide), fun hx => absurd hx.2 h2⟩,
        ⟨fun _ => ⟨h1, h2⟩, fun _ => rfl⟩⟩

/-- Claim C3 witness: the amended theorem at the initial state (light 100,
CO₂ 40, temperature 25): the CO₂ score 66.7 is the strict minimum, and the
reported limiting factor is `"co2"`. -/
theorem c3_limiting_factor_first_min_witness :
    (calculateRate initState).limitingFactor = "co2" := by
  have h := c3_limiting_factor_first_min initState
    (by rw [show initState.light = (100 : ℝ) from rfl]; norm_num)
  apply h.2.1.mpr
  constructor
  · rintro ⟨hx, -⟩
    rw [show initState.light = (100 : ℝ) from rfl,
      show initState.co2 = (40 : ℝ) from rfl] at hx
    norm_num [lightEffect, co2Effect] at hx
  · rw [show initState.co2 = (40 : ℝ) from rfl,
      show initState.temp = (25 : ℝ) from rfl, tempEffect_at_optimal]
    norm_num [co2Effect]

lemma updateSimulation_biomass_le_add (s : SimState) :
    (updateSimulation s).biomass ≤ s.biomass + 0.05 := by
  rw [updateSimulation_biomass]
  exact integrateBiomass_le_add _ _ (growthRate_le_100 _)

lemma updateSimulation_at_cap (s : SimState) (h : 200 ≤ s.biomass) :
    (updateSimulation s).biomass = s.biomass := by
  rw [updateSimulation_biomass]
  exact integrateBiomass_at_cap _ _ h

lemma iterate_at_cap (s : SimState) (h : 200 ≤ s.biomass) (n : ℕ) :
    (updateSimulation^[n] s).biomass = s.biomass := by
  induction n with
  | zero => rfl
  | succ n ih =>
    rw [Function.iterate_succ_apply', updateSimulation_at_cap _ (by rw [ih]; exact h), ih]

lemma runActions_cons (a : Action) (acts : List Action) (s : SimState) :
    runActions (a :: acts) s = runActions acts (applyAction s a) := rfl

lemma applyAction_manualInput (s : SimState) (l c t : ℝ) :
    applyAction s (Action.manualInput l c t) = handleManualInput s l c t := rfl

lemma runActions_replicate_tick (n : ℕ) (s : SimState) :
    runActions (List.replicate n Action.tick) s = updateSimulation^[n] s := by
  induction n generalizing s with
  | zero => rfl
  | succ n ih =>
    rw [List.replicate_succ]
    show runActions (List.replicate n Action.tick) (updateSimulation s) = _
    rw [ih, ← Function.iterate_succ_apply]

lemma tick_manual_fields (s : SimState) (ha : s.autoPlay = false)
    (hl : s.light = 100) (hc : s.co2 = 99) (ht : s.temp = 25) :
    (updateSimulation s).autoPlay = false ∧ (updateSimulation s).light = 100 ∧
    (updateSimulation s).co2 = 99 ∧ (updateSimulation s).temp = 25 ∧
    (updateSimulation s).biomass =
      (if s.biomass < 200 then s.biomass + 99 / 2380 else s.biomass) := by
  have he := calculateEnvironment_frozen s ha
  have hrate : (calculateRate s).growthRate = 9900 / 119 := by
    rw [calculateRate_growthRate, hl, hc, ht, tempEffect_at_optimal]
    rw [if_neg (by norm_num)]
    unfold lightEffect co2Effect
    simp only [min_def]
    norm_num
  refine ⟨by simp [ha], by simp [he, hl], by simp [hc], by simp [he, ht], ?_⟩
  rw [updateSimulation_biomass, he, hrate]
  unfold integrateBiomass MAX_BIOMASS
  by_cases hb : s.biomass < 200
  · rw [if_pos ⟨by norm_num, hb⟩, if_pos hb]
    norm_num
  · rw [if_neg (fun hx => hb hx.2), if_neg hb]

lemma iter_manual_biomass :
    ∀ n : ℕ, n ≤ 4448 → ∀ s : SimState, s.autoPlay = false → s.light = 100 →
      s.co2 = 99 → s.temp = 25 → s.biomass = 15 →
      (updateSimulation^[n] s).autoPlay = false ∧
      (updateSimulation^[n] s).light = 100 ∧
      (updateSimulation^[n] s).co2 = 99 ∧
      (updateSimulation^[n] s).temp = 25 ∧
      (updateSimulation^[n] s).biomass = 15 + n * (99 / 2380) := by
  intro n
  induction n with
  | zero =>
    intro _ s ha hl hc ht hb
    simpa using ⟨ha, hl, hc, ht, hb⟩
  | succ n ih =>
    intro hn s ha hl hc ht hb
    have hn1 : n ≤ 4448 := Nat.le_of_succ_le hn
    obtain ⟨ia, il, ic, it, ib⟩ := ih hn1 s ha hl hc ht hb
    have hcast : (n : ℝ) ≤ 4447 := by
      have hx : n ≤ 4447 := Nat.lt_succ_iff.mp hn
      exact_mod_cast hx
    have hlt : (updateSimulation^[n] s).biomass < 200 := by
      rw [ib]
      linarith
    obtain ⟨ja, jl, jc, jt, jb⟩ := tick_manual_fields _ ia il ic it
    rw [Function.iterate_succ_apply']
    refine ⟨ja, jl, jc, jt, ?_⟩
    rw [jb, if_pos hlt, ib]
    push_cast
    ring

/-- Claim C1 counterexample: starting from the initial state (biomass 15),
the valid input sequence "set light 100, CO₂ 99, temperature 25 manually,
then tick 4448 times" drives the biomass strictly above `MAX_BIOMASS = 200`
(to 15 + 4448·(99/2380) ≈ 200.02), refuting the claim that biomass never
exceeds 200. -/
theorem c1_biomass_exceeds_cap :
    (∀ a ∈ Action.manualInput 100 99 25 :: List.replicate 4448 Action.tick,
      ValidAction a) ∧
    200 < (runActions
        (Action.manualInput 100 99 25 :: List.replicate 4448 Action.tick)
        initState).biomass := by
  constructor
  · intro a ha
    rcases List.mem_cons.mp ha with rfl | hm
    · exact ⟨by norm_num, by norm_num, by norm_num, by norm_num, by norm_num, by norm_num⟩
    · rw [List.eq_of_mem_replicate hm]
      trivial
  · have hrun : runActions
        (Action.manualInput 100 99 25 :: List.replicate 4448 Action.tick) initState =
        updateSimulation^[4448] (handleManualInput initState 100 99 25) := by
      rw [runActions_cons, applyAction_manualInput, runActions_replicate_tick]
    rw [hrun]
    have h := (iter_manual_biomass 4448 le_rfl (handleManualInput initState 100 99 25)
      rfl rfl rfl rfl rfl).2.2.2.2
    rw [h]
    norm_num

/-- Claim C1 (amended): across every sequence of ticks and valid manual
inputs (light, CO₂ in [0,100], temperature in [0,50]) starting from the
initial state (biomass 15), the biomass field is monotonically
non-decreasing; it always stays below 200.05, but it can exceed
`MAX_BIOMASS = 200` by less than 0.05, because the cap is checked before
the addition and the result is not clamped. -/
theorem c1_biomass_monotone_bounded (pre suf : List Action)
    (_hvalid : ∀ a ∈ pre ++ suf, ValidAction a) :
    (runActions pre initState).biomass ≤ (runActions (pre ++ suf) initState).biomass ∧
    (runActions (pre ++ suf) initState).biomass < 200.05 := by
  rw [runActions_append]
  refine ⟨runActions_biomass_mono suf _, runActions_biomass_lt suf _ ?_⟩
  refine runActions_biomass_lt pre _ ?_
  rw [show initState.biomass = (15 : ℝ) from rfl]
  norm_num

/-- Claim C1 witness: the amended theorem at the one-tick sequence -- after
a single tick from the initial state, biomass has not decreased and is
below 200.05. -/
theorem c1_biomass_monotone_bounded_witness :
    (runActions [] initState).biomass ≤
      (runActions ([] ++ [Action.tick]) initState).biomass ∧
    (runActions ([] ++ [Action.tick]) initState).biomass < 200.05 :=
  c1_biomass_monotone_bounded [] [Action.tick] (by
    intro a ha
    simp only [List.nil_append, List.mem_singleton] at ha
    subst ha
    trivial)

/-- Claim C10: once the biomass is at or above `MAX_BIOMASS = 200`, no
number of subsequent ticks changes it; each tick adds at most
`100 * 0.0005 = 0.05` to the biomass; and along every sequence of ticks and
valid inputs from the initial state the biomass never exceeds 200.05. -/
theorem c10_cap_stability :
    (∀ s : SimState, MAX_BIOMASS ≤ s.biomass →
      ∀ n : ℕ, (updateSimulation^[n] s).biomass = s.biomass) ∧
    (∀ s : SimState, (updateSimulation s).biomass ≤ s.biomass + 100 * 0.0005) ∧
    (∀ acts : List Action, (∀ a ∈ acts, ValidAction a) →
      (runActions acts initState).biomass ≤ 200.05) := by
  refine ⟨fun s h n => iterate_at_cap s h n, fun s => ?_, fun acts _ => ?_⟩
  · have h := updateSimulation_biomass_le_add s
    linarith
  · refine le_of_lt (runActions_biomass_lt acts initState ?_)
    rw [show initState.biomass = (15 : ℝ) from rfl]
    norm_num

/-- Claim C10 witness: a state capped at biomass 200 is unchanged by a
tick, and the empty sequence from the initial state stays within 200.05. -/
theorem c10_cap_stability_witness :
    (updateSimulation^[1] { initState with biomass := 200 }).biomass =
      ({ initState with biomass := 200 } : SimState).biomass ∧
    (runActions [] initState).biomass ≤ 200.05 :=
  ⟨c10_cap_stability.1 { initState with biomass := 200 } le_rfl 1,
   c10_cap_stability.2.2 [] (by intro a ha; cases ha)⟩

end Photosynthesis
